import Mathlib

/-!
Shallow embedding of the video-editor frontend (crop / overlay geometry,
overlay time synchronization, upload validation, job resolution and
editor-session state), translated from:

* frontend/src/components/CropOverlay/index.tsx (CropOverlay and PropertyPanel)
* frontend/src/components/OverlayVideo/index.tsx (OverlayVideo and VideoPlayer)
* frontend/src/components/MainVideoUploader/index.tsx and MaterialPanel/index.tsx
* frontend/src/pages/Editor/index.tsx
* frontend/src/types/video.ts

JS numbers are modelled by rationals (every IEEE double used here is a
rational), pixel rectangles after rounding by integer fields.  Definitions
come first, theorems afterwards.
-/

namespace VideoEditor

/-- JS `Math.round`: rounds half-way cases toward positive infinity
(`Math.round(0.5) = 1`, `Math.round(-0.5) = 0`), i.e. `⌊q + 1/2⌋`. -/
def jsRound (q : ℚ) : ℤ := ⌊q + 1/2⌋

/-- JS `%` (remainder) for the nonnegative operands used by the code:
`a % b = a − b·⌊a/b⌋` for `a ≥ 0`, `b > 0`. -/
def jsMod (a b : ℚ) : ℚ := a - b * ⌊a / b⌋

/-- Interface `CropArea` from types/video.ts: integer pixel rectangle
(`x`, `y` top-left corner, `width`, `height`), as produced by the rounding
clamp. -/
structure CropArea where
  x : ℤ
  y : ℤ
  width : ℤ
  height : ℤ
deriving DecidableEq, Repr

/-- A rectangle with raw (not yet rounded) JS-number fields, as handled by
the gesture code of CropOverlay before `clampArea` rounds it. -/
structure RatArea where
  x : ℚ
  y : ℚ
  width : ℚ
  height : ℚ
deriving DecidableEq, Repr

/-- Function `clampArea` from CropOverlay: round all four fields, clamp
`width` to `[minSize, videoWidth]` and `height` to `[minSize, videoHeight]`,
then clamp `x` to `[0, videoWidth - width]` and `y` to
`[0, videoHeight - height]` (`minSize = 20`). -/
def clampArea (videoWidth videoHeight : ℤ) (area : RatArea) : CropArea :=
  let minSize : ℤ := 20
  let x := jsRound area.x
  let y := jsRound area.y
  let width := jsRound area.width
  let height := jsRound area.height
  let width := max minSize (min width videoWidth)
  let height := max minSize (min height videoHeight)
  let x := max 0 (min x (videoWidth - width))
  let y := max 0 (min y (videoHeight - height))
  { x := x, y := y, width := width, height := height }

/-- The eight resize handles plus whole-rectangle move, from CropOverlay's
`ResizeHandle` type and the `dragging` flag. -/
inductive DragKind where
  | move | nw | n | ne | e | se | s | sw | w
deriving DecidableEq, Repr

/-- The gesture transform of CropOverlay `handleMouseMove`: given the
snapshot rectangle `init` taken at mouse-down and the pointer delta
`(dx, dy)` already converted to native pixels, produce the raw rectangle
that is subsequently passed to `clampArea`. -/
def gestureTransform (kind : DragKind) (init : RatArea) (dx dy : ℚ) : RatArea :=
  match kind with
  | .move => { init with x := init.x + dx, y := init.y + dy }
  | .nw => { x := init.x + dx, y := init.y + dy,
             width := init.width - dx, height := init.height - dy }
  | .n => { init with y := init.y + dy, height := init.height - dy }
  | .ne => { init with y := init.y + dy, width := init.width + dx, height := init.height - dy }
  | .e => { init with width := init.width + dx }
  | .se => { init with width := init.width + dx, height := init.height + dy }
  | .s => { init with height := init.height + dy }
  | .sw => { init with x := init.x + dx, width := init.width - dx, height := init.height + dy }
  | .w => { init with x := init.x + dx, width := init.width - dx }

/-- One crop-gesture update: transform the snapshot and clamp, as in
`handleMouseMove` of CropOverlay. -/
def cropGestureUpdate (videoWidth videoHeight : ℤ) (kind : DragKind)
    (init : RatArea) (dx dy : ℚ) : CropArea :=
  clampArea videoWidth videoHeight (gestureTransform kind init dx dy)

/-- The bounds invariant of the spec data model: minimum size 20 and the
rectangle contained in `[0, boundsWidth] × [0, boundsHeight]`. -/
def InBounds (boundsWidth boundsHeight : ℤ) (a : CropArea) : Prop :=
  20 ≤ a.width ∧ 20 ≤ a.height ∧ 0 ≤ a.x ∧ 0 ≤ a.y ∧
    a.x + a.width ≤ boundsWidth ∧ a.y + a.height ≤ boundsHeight

instance (W H : ℤ) (a : CropArea) : Decidable (InBounds W H a) := by
  unfold InBounds; infer_instance

/-- The four editable rectangle fields (`keyof CropArea` /
`keyof OverlayPosition` in the source). -/
inductive RectField where
  | x | y | width | height
deriving DecidableEq, Repr

/-- Function `handleCropChange` (and the identically-clamping
`handleCropInputBlur`) from PropertyPanel: a numeric edit of one crop
field, clamped against the main video dimensions and the remaining fields.
The edited value is an integer (the source applies `Math.round` /
`parseInt` before clamping). -/
def handleCropChange (mainWidth mainHeight : ℤ) (a : CropArea)
    (f : RectField) (v : ℤ) : CropArea :=
  match f with
  | .x => { a with x := max 0 (min v (mainWidth - a.width)) }
  | .y => { a with y := max 0 (min v (mainHeight - a.height)) }
  | .width => { a with width := max 20 (min v (mainWidth - a.x)) }
  | .height => { a with height := max 20 (min v (mainHeight - a.y)) }

/-- Interface `OverlayPosition` from types/video.ts: the overlay rectangle
in the primary video's native pixel space. -/
structure OverlayPosition where
  x : ℤ
  y : ℤ
  width : ℤ
  height : ℤ
deriving DecidableEq, Repr

/-- View an `OverlayPosition` as a plain rectangle, to state the shared
bounds invariant. -/
def OverlayPosition.toArea (p : OverlayPosition) : CropArea :=
  ⟨p.x, p.y, p.width, p.height⟩

/-- Function `handleOverlayChange` from PropertyPanel: a numeric edit of
one overlay field is only clamped below by `0` (`Math.max(0, numValue)`). -/
def handleOverlayChange (p : OverlayPosition) (f : RectField) (v : ℤ) :
    OverlayPosition :=
  match f with
  | .x => { p with x := max 0 v }
  | .y => { p with y := max 0 v }
  | .width => { p with width := max 0 v }
  | .height => { p with height := max 0 v }

/-- The drag branch of OverlayVideo's `handleMouseMove`: translate the
mouse-down snapshot position `(startX, startY)` by the native-space delta,
round, and clamp into `[0, mainWidth − width] × [0, mainHeight − height]`. -/
def overlayDrag (mainWidth mainHeight : ℤ) (p : OverlayPosition)
    (startX startY : ℤ) (dx dy : ℚ) : OverlayPosition :=
  let newX := jsRound ((startX : ℚ) + dx)
  let newY := jsRound ((startY : ℚ) + dy)
  let newX := max 0 (min newX (mainWidth - p.width))
  let newY := max 0 (min newY (mainHeight - p.height))
  { p with x := newX, y := newY }

/-- The resize branch of OverlayVideo's `handleMouseMove`: grow the
mouse-down snapshot size `(startW, startH)` by the native-space delta,
round, clamp below by `50`, then clamp so the overlay does not extend past
the main video. -/
def overlayResize (mainWidth mainHeight : ℤ) (p : OverlayPosition)
    (startW startH : ℤ) (dx dy : ℚ) : OverlayPosition :=
  let newW := jsRound ((startW : ℚ) + dx)
  let newH := jsRound ((startH : ℚ) + dy)
  let newW := max 50 newW
  let newH := max 50 newH
  let newW := min newW (mainWidth - p.x)
  let newH := min newH (mainHeight - p.y)
  { p with width := newW, height := newH }

/-- The crop rectangle and the overlay rectangle, the two region values the
editor mutates. -/
structure RegionState where
  crop : CropArea
  overlay : OverlayPosition
deriving DecidableEq, Repr

/-- The region-mutating operations reachable from pointer gestures and the
crop numeric fields (each carries its mouse-down snapshot where the source
keeps one). -/
inductive RegionOp where
  | cropGesture (kind : DragKind) (init : RatArea) (dx dy : ℚ)
  | cropEdit (f : RectField) (v : ℤ)
  | overlayDragOp (startX startY : ℤ) (dx dy : ℚ)
  | overlayResizeOp (startW startH : ℤ) (dx dy : ℚ)

/-- Apply one region operation to the editor's region state. -/
def applyRegionOp (W H : ℤ) (s : RegionState) : RegionOp → RegionState
  | .cropGesture kind init dx dy =>
      { s with crop := cropGestureUpdate W H kind init dx dy }
  | .cropEdit f v => { s with crop := handleCropChange W H s.crop f v }
  | .overlayDragOp sx sy dx dy =>
      { s with overlay := overlayDrag W H s.overlay sx sy dx dy }
  | .overlayResizeOp sw sh dx dy =>
      { s with overlay := overlayResize W H s.overlay sw sh dx dy }

/-- Apply a sequence of region operations in order. -/
def applyRegionOps (W H : ℤ) (s : RegionState) (ops : List RegionOp) :
    RegionState :=
  ops.foldl (applyRegionOp W H) s

/-- Transport state of the secondary `<video>` element (its play position
and whether it is paused). -/
structure VideoElState where
  currentTime : ℚ
  paused : Bool
deriving DecidableEq, Repr

/-- Value `overlayEndTime` from OverlayVideo: the overlay's end on the
primary timeline, capped at the primary duration. -/
def overlayEndTime (overlayStartTime secondaryDuration mainVideoDuration : ℚ) : ℚ :=
  min (overlayStartTime + secondaryDuration) mainVideoDuration

/-- Value `shouldShow` from OverlayVideo:
`mainVideoTime >= overlayStartTime && mainVideoTime < overlayEndTime`. -/
def shouldShow (mainVideoTime overlayStartTime secondaryDuration
    mainVideoDuration : ℚ) : Bool :=
  decide (overlayStartTime ≤ mainVideoTime) &&
    decide (mainVideoTime <
      overlayEndTime overlayStartTime secondaryDuration mainVideoDuration)

/-- Result of one run of OverlayVideo's sync effect: the new element state
and whether `currentTime` was assigned (a seek was issued). -/
structure SyncResult where
  video : VideoElState
  seeked : Bool
deriving DecidableEq, Repr

/-- The sync effect of OverlayVideo (the `useEffect` on
`[mainVideoTime, overlayStartTime, shouldShow, isPlaying]`): when visible,
force `currentTime` to `mainVideoTime − overlayStartTime` if the primary is
not playing, re-seek only on drift `> 0.3` s if it is, and mirror
play/pause; when not visible, pause. -/
def syncOverlay (mainVideoTime overlayStartTime secondaryDuration
    mainVideoDuration : ℚ) (isPlaying : Bool) (v : VideoElState) : SyncResult :=
  if shouldShow mainVideoTime overlayStartTime secondaryDuration
      mainVideoDuration then
    let expectedOverlayTime := mainVideoTime - overlayStartTime
    let seek : ℚ × Bool :=
      if !isPlaying then
        (expectedOverlayTime, true)
      else if |v.currentTime - expectedOverlayTime| > 3/10 then
        (expectedOverlayTime, true)
      else
        (v.currentTime, false)
    let paused :=
      if isPlaying && v.paused then false
      else if !isPlaying && !v.paused then true
      else v.paused
    ⟨⟨seek.1, paused⟩, seek.2⟩
  else
    ⟨⟨v.currentTime, if !v.paused then true else v.paused⟩, false⟩

/-- The overlay container's rendered opacity: `shouldShow ? 1 : 0`. -/
def overlayOpacity (visible : Bool) : ℚ :=
  if visible then 1 else 0

/-- The overlay container's pointer interaction:
`pointerEvents: shouldShow ? 'auto' : 'none'`, as a Boolean
(`true` = `'auto'`). -/
def overlayPointerEventsAuto (visible : Bool) : Bool :=
  visible

/-- The letterbox/pillarbox quantities computed at the top of CropOverlay:
display size of the rendered frame, its offset inside the container, and
the uniform `scale = displayWidth / videoWidth`. -/
structure FitResult where
  displayWidth : ℚ
  displayHeight : ℚ
  offsetX : ℚ
  offsetY : ℚ
  scale : ℚ
deriving DecidableEq, Repr

/-- The fit computation of CropOverlay (`videoAspect` vs `containerAspect`
branch).  The source's branch condition `videoAspect > containerAspect` is
modelled as `containerHeight ≠ 0 ∧ videoAspect > containerAspect`: when
`containerHeight = 0`, JS evaluates `containerAspect` to `Infinity` (or
`NaN` when `containerWidth` is also 0) and the comparison is false, so the
else branch is taken — exactly what the added conjunct yields.  Faithful
for positive video dimensions and nonnegative container dimensions. -/
def computeFit (videoWidth videoHeight containerWidth containerHeight : ℚ) :
    FitResult :=
  let videoAspect := videoWidth / videoHeight
  let containerAspect := containerWidth / containerHeight
  if containerHeight ≠ 0 ∧ videoAspect > containerAspect then
    { displayWidth := containerWidth,
      displayHeight := containerWidth / videoAspect,
      offsetX := 0,
      offsetY := (containerHeight - containerWidth / videoAspect) / 2,
      scale := containerWidth / videoWidth }
  else
    { displayWidth := containerHeight * videoAspect,
      displayHeight := containerHeight,
      offsetX := (containerWidth - containerHeight * videoAspect) / 2,
      offsetY := 0,
      scale := containerHeight * videoAspect / videoWidth }

/-- Function `toContainerCoords` from CropOverlay: native rectangle to
viewport (container) rectangle, no rounding. -/
def toContainerCoords (scale offsetX offsetY : ℚ) (area : CropArea) : RatArea :=
  { x := (area.x : ℚ) * scale + offsetX,
    y := (area.y : ℚ) * scale + offsetY,
    width := (area.width : ℚ) * scale,
    height := (area.height : ℚ) * scale }

/-- Function `toVideoCoords` from CropOverlay: viewport (container)
rectangle back to native pixels, each field rounded. -/
def toVideoCoords (scale offsetX offsetY : ℚ) (containerArea : RatArea) :
    CropArea :=
  { x := jsRound ((containerArea.x - offsetX) / scale),
    y := jsRound ((containerArea.y - offsetY) / scale),
    width := jsRound (containerArea.width / scale),
    height := jsRound (containerArea.height / scale) }

/-- Editor mode from types/video.ts: `'crop' | 'merge'`. -/
inductive EditorMode where
  | crop | merge
deriving DecidableEq, Repr

/-- Asset provenance from types/video.ts:
`'upload' | 'crop' | 'merge'` (the spec's `upload` / `crop-result` /
`merge-result`). -/
inductive SourceType where
  | upload | crop | merge
deriving DecidableEq, Repr

/-- The job kind passed to `pollTaskStatus` (`'crop' | 'merge'`). -/
inductive JobKind where
  | crop | merge
deriving DecidableEq, Repr

/-- A completed job of the given kind stamps the corresponding provenance
on the produced asset. -/
def JobKind.toSourceType : JobKind → SourceType
  | .crop => .crop
  | .merge => .merge

/-- Interface `VideoFile` from types/video.ts. -/
structure VideoFile where
  id : String
  name : String
  size : ℕ
  duration : ℚ
  width : ℤ
  height : ℤ
  fps : ℚ
  frameCount : ℤ
  format : String
  url : String
  isMain : Bool
  sourceType : Option SourceType
  parentId : Option String
deriving DecidableEq, Repr

/-- Constant `API_BASE` from services/videoApi.ts. -/
def API_BASE : String := "http://localhost:5001/api"

/-- Function `getVideoUrl` from services/videoApi.ts. -/
def getVideoUrl (fileId : String) : String :=
  API_BASE ++ "/video/file/" ++ fileId

/-- The state held by the Editor page (pages/Editor/index.tsx). -/
structure EditorState where
  allVideos : List VideoFile
  mainVideo : Option VideoFile
  previewVideo : Option VideoFile
  selectedMaterial : Option VideoFile
  mode : EditorMode
  duration : ℚ
  startTime : ℚ
  endTime : ℚ
  currentTime : ℚ
  cropArea : Option CropArea
  overlayPosition : Option OverlayPosition
deriving DecidableEq, Repr

/-- The Editor `useEffect` on `mainVideo?.id`: when a (new) main video is
present, reset the edit range to the full duration and clear crop, overlay
and selected material, previewing the main video. -/
def mainVideoResetEffect (s : EditorState) : EditorState :=
  match s.mainVideo with
  | some m =>
      { s with startTime := 0, endTime := m.duration, cropArea := none,
               duration := m.duration, overlayPosition := none,
               selectedMaterial := none, previewVideo := some m }
  | none => s

/-- Function `handleMainVideoUpload` from the Editor page: add the uploaded
asset to the front of the library unless its id is already present, and
make it the main video only when no main video exists (in which case the
`mainVideo?.id` effect fires and resets the session). -/
def handleMainVideoUpload (s : EditorState) (v : VideoFile) : EditorState :=
  let alreadyInLibrary := s.allVideos.any fun w => w.id == v.id
  let s1 := { s with allVideos :=
                if alreadyInLibrary then s.allVideos else v :: s.allVideos }
  match s.mainVideo with
  | none => mainVideoResetEffect { s1 with mainVideo := some v }
  | some _ => s1

/-- Function `handleVideoExported` from the Editor page: append the
produced asset to the library. -/
def handleVideoExported (s : EditorState) (v : VideoFile) : EditorState :=
  { s with allVideos := s.allVideos ++ [v] }

/-- Function `handleModeChange` from the Editor page: set the mode; on
switching to crop mode clear the selected material and overlay placement
and, when a main video is loaded and no crop region exists, create the
full-frame default crop; always re-preview the main video when present. -/
def handleModeChange (s : EditorState) (newMode : EditorMode) : EditorState :=
  let s1 :=
    match newMode with
    | .crop =>
        let s2 := { s with mode := newMode, selectedMaterial := none,
                           overlayPosition := none }
        match s.mainVideo, s.cropArea with
        | some m, none => { s2 with cropArea := some ⟨0, 0, m.width, m.height⟩ }
        | _, _ => s2
    | .merge => { s with mode := newMode }
  match s.mainVideo with
  | some m => { s1 with previewVideo := some m }
  | none => s1

/-- JS `String(n).padStart(2, '0')` for the integers used in generated
file names. -/
def padStart2 (n : ℤ) : String :=
  let str := toString n
  if str.length < 2 then "0" ++ str else str

/-- The `MM-SS-ms` start-time fragment of the generated file name in
`pollTaskStatus` (`Math.floor` of minutes, seconds and centiseconds). -/
def startTimeFileStr (startTime : ℚ) : String :=
  padStart2 ⌊startTime / 60⌋ ++ "-" ++ padStart2 ⌊jsMod startTime 60⌋ ++ "-" ++
    padStart2 ⌊jsMod startTime 1 * 100⌋

/-- The completed branch of `pollTaskStatus` in PropertyPanel: the new
`VideoFile` built from the job result and the submission parameters.
`timestamp` is the wall-clock string the source obtains from
`toLocaleTimeString`; the JS `||` fallbacks (`resultFileId || taskId`,
`cropArea?.width || mainVideo.width`, `cropArea?.x || 0`) are modelled by
their falsy checks. -/
def completedVideo (mainVideo : VideoFile) (taskId : String)
    (resultFileId : Option String) (format : String) (sourceType : JobKind)
    (timestamp : String) (startTime endTime : ℚ)
    (cropArea : Option CropArea) (overlayPosition : Option OverlayPosition) :
    VideoFile :=
  let fileId :=
    match resultFileId with
    | some r => if r = "" then taskId else r
    | none => taskId
  let fileName :=
    match sourceType with
    | .crop =>
        let cx := match cropArea with | some c => c.x | none => 0
        let cy := match cropArea with | some c => c.y | none => 0
        "裁剪_" ++ toString cx ++ "_" ++ toString cy ++ "_" ++ timestamp ++
          "_" ++ startTimeFileStr startTime ++ "." ++ format
    | .merge =>
        let ox := match overlayPosition with | some p => p.x | none => 0
        let oy := match overlayPosition with | some p => p.y | none => 0
        "拼接_" ++ toString ox ++ "_" ++ toString oy ++ "_" ++ timestamp ++
          "_" ++ startTimeFileStr startTime ++ "." ++ format
  { id := fileId,
    name := fileName,
    size := 0,
    duration := endTime - startTime,
    width := match cropArea with
      | some c => if c.width = 0 then mainVideo.width else c.width
      | none => mainVideo.width,
    height := match cropArea with
      | some c => if c.height = 0 then mainVideo.height else c.height
      | none => mainVideo.height,
    fps := mainVideo.fps,
    frameCount := jsRound ((endTime - startTime) * mainVideo.fps),
    format := format,
    url := getVideoUrl fileId,
    isMain := false,
    sourceType := some sourceType.toSourceType,
    parentId := some mainVideo.id }

/-- A browser `File` as far as validation reads it: name, declared MIME
type, byte size. -/
structure UploadFile where
  name : String
  type : String
  size : ℕ
deriving DecidableEq, Repr

/-- Suffix test on character lists (used to model the anchored,
case-insensitive extension regex). -/
def listEndsWith (l suffixChars : List Char) : Bool :=
  decide (suffixChars.length ≤ l.length) &&
    (l.drop (l.length - suffixChars.length) == suffixChars)

/-- The file-name test `/\.(mp4|mov|avi|webm|mkv|flv|wmv)$/i` shared by
MainVideoUploader `validateFile` and MaterialPanel `handleFileChange`. -/
def allowedExtension (name : String) : Bool :=
  ["mp4", "mov", "avi", "webm", "mkv", "flv", "wmv"].any fun ext =>
    listEndsWith (name.data.map Char.toLower) ("." ++ ext).data

/-- Constant `ALLOWED_TYPES` from MainVideoUploader and MaterialPanel. -/
def ALLOWED_TYPES : List String :=
  ["video/mp4", "video/quicktime", "video/x-msvideo", "video/webm",
   "video/x-matroska"]

/-- Constant `MAX_SIZE` from MainVideoUploader and MaterialPanel:
500 MiB. -/
def MAX_SIZE : ℕ := 500 * 1024 * 1024

/-- Function `validateFile` from MainVideoUploader (MaterialPanel's
`handleFileChange` performs the same checks): `some message` when the file
is rejected, `none` when it is accepted.  The oversize message is
abbreviated (the source interpolates the formatted size limit). -/
def validateFile (f : UploadFile) : Option String :=
  if !(ALLOWED_TYPES.contains f.type) && !(allowedExtension f.name) then
    some "不支持的文件格式，请上传 MP4、MOV、AVI、WebM、MKV 格式的视频"
  else if f.size > MAX_SIZE then
    some "文件大小超过限制"
  else
    none

/-- `handleUpload` reaches the network (`uploadVideo`) exactly when
`validateFile` reports no error; otherwise it shows the message and
returns. -/
def uploadProceeds (f : UploadFile) : Bool :=
  (validateFile f).isNone

/-- A sample 1920×1080, 30 fps, 60 s uploaded main video. -/
def sampleVideo : VideoFile :=
  { id := "v1", name := "main.mp4", size := 1000, duration := 60,
    width := 1920, height := 1080, fps := 30, frameCount := 1800,
    format := "mp4", url := getVideoUrl "v1", isMain := true,
    sourceType := some .upload, parentId := none }

/-- A second sample uploaded video (640×360, 10 s). -/
def sampleVideo2 : VideoFile :=
  { id := "v2", name := "clip.mp4", size := 500, duration := 10,
    width := 640, height := 360, fps := 30, frameCount := 300,
    format := "mp4", url := getVideoUrl "v2", isMain := false,
    sourceType := some .upload, parentId := none }

/-- An editor session in crop mode with `sampleVideo` as main video and an
existing crop region `{x:10, y:10, width:600, height:400}`. -/
def editorStateWithCrop : EditorState :=
  { allVideos := [sampleVideo], mainVideo := some sampleVideo,
    previewVideo := some sampleVideo, selectedMaterial := none,
    mode := .crop, duration := 60, startTime := 0, endTime := 60,
    currentTime := 0, cropArea := some ⟨10, 10, 600, 400⟩,
    overlayPosition := none }

/-- The asset produced by a completed crop job over `sampleVideo` from 5 s
to 15 s with crop region `{x:10, y:10, width:600, height:400}`. -/
def c7SampleResult : VideoFile :=
  completedVideo sampleVideo "t1" (some "r1") "mp4" .crop "120000" 5 15
    (some ⟨10, 10, 600, 400⟩) none

/-- The map `jsRound` is the identity on integers. -/
theorem jsRound_intCast (n : ℤ) : jsRound (n : ℚ) = n := by
  unfold jsRound
  rw [Int.floor_eq_iff]
  constructor
  · linarith
  · linarith

/-- The output of `clampArea` always satisfies the bounds invariant,
provided the bounds themselves are at least `minSize`. -/
theorem clampArea_inBounds (W H : ℤ) (hW : 20 ≤ W) (hH : 20 ≤ H)
    (r : RatArea) : InBounds W H (clampArea W H r) := by
  simp only [clampArea, InBounds]
  refine ⟨?_, ?_, ?_, ?_, ?_, ?_⟩ <;> omega

/-- A crop numeric-field edit preserves the bounds invariant. -/
theorem handleCropChange_inBounds (W H : ℤ) (a : CropArea) (f : RectField)
    (v : ℤ) (ha : InBounds W H a) :
    InBounds W H (handleCropChange W H a f v) := by
  obtain ⟨h1, h2, h3, h4, h5, h6⟩ := ha
  cases f <;>
    (simp only [handleCropChange, InBounds]
     refine ⟨?_, ?_, ?_, ?_, ?_, ?_⟩ <;> omega)

/-- An overlay drag preserves the bounds invariant. -/
theorem overlayDrag_inBounds (W H : ℤ) (p : OverlayPosition)
    (sx sy : ℤ) (dx dy : ℚ) (hp : InBounds W H p.toArea) :
    InBounds W H (overlayDrag W H p sx sy dx dy).toArea := by
  obtain ⟨h1, h2, h3, h4, h5, h6⟩ := hp
  simp only [overlayDrag, OverlayPosition.toArea, InBounds] at *
  refine ⟨?_, ?_, ?_, ?_, ?_, ?_⟩ <;> omega

/-- An overlay resize preserves the bounds invariant. -/
theorem overlayResize_inBounds (W H : ℤ) (p : OverlayPosition)
    (sw sh : ℤ) (dx dy : ℚ) (hp : InBounds W H p.toArea) :
    InBounds W H (overlayResize W H p sw sh dx dy).toArea := by
  obtain ⟨h1, h2, h3, h4, h5, h6⟩ := hp
  simp only [overlayResize, OverlayPosition.toArea, InBounds] at *
  refine ⟨?_, ?_, ?_, ?_, ?_, ?_⟩ <;> omega

/-- C2, counterexample: the overlay placement `{x:0, y:0, width:480,
height:270}` satisfies the bounds invariant for a 1920×1080 primary, but
the numeric-field edit `handleOverlayChange` setting `width := 5000`
produces `width = 5000` with `x + width = 5000 > 1920`, violating the
claimed invariant. -/
theorem c2_counterexample :
    InBounds 1920 1080 (OverlayPosition.toArea ⟨0, 0, 480, 270⟩) ∧
    ¬ InBounds 1920 1080
        (handleOverlayChange ⟨0, 0, 480, 270⟩ .width 5000).toArea := by
  constructor
  · simp only [OverlayPosition.toArea, InBounds]; norm_num
  · simp only [handleOverlayChange, OverlayPosition.toArea, InBounds]
    norm_num

/-- C2, amended: every pointer move/resize gesture on the crop rectangle or
the overlay rectangle and every crop numeric-field edit preserves the
bounds invariant — so after any sequence of these operations both
rectangles satisfy `width ≥ 20`, `height ≥ 20`, `x ≥ 0`, `y ≥ 0`,
`x + width ≤ boundsWidth`, `y + height ≤ boundsHeight`.  (Overlay
numeric-field edits are excluded: they clamp only below by `0`, see
`c2_counterexample`.) -/
theorem c2_region_ops_preserve_invariant (W H : ℤ) (hW : 20 ≤ W)
    (hH : 20 ≤ H) (s : RegionState) (hc : InBounds W H s.crop)
    (ho : InBounds W H s.overlay.toArea) (ops : List RegionOp) :
    InBounds W H (applyRegionOps W H s ops).crop ∧
    InBounds W H (applyRegionOps W H s ops).overlay.toArea := by
  induction ops generalizing s with
  | nil => exact ⟨hc, ho⟩
  | cons op rest ih =>
      have hstep : InBounds W H (applyRegionOp W H s op).crop ∧
          InBounds W H (applyRegionOp W H s op).overlay.toArea := by
        cases op with
        | cropGesture kind init dx dy =>
            exact ⟨clampArea_inBounds W H hW hH _, ho⟩
        | cropEdit f v =>
            exact ⟨handleCropChange_inBounds W H s.crop f v hc, ho⟩
        | overlayDragOp sx sy dx dy =>
            exact ⟨hc, overlayDrag_inBounds W H s.overlay sx sy dx dy ho⟩
        | overlayResizeOp sw sh dx dy =>
            exact ⟨hc, overlayResize_inBounds W H s.overlay sw sh dx dy ho⟩
      exact ih (applyRegionOp W H s op) hstep.1 hstep.2

/-- Witness for `c2_region_ops_preserve_invariant`: a 1920×1080 primary,
full-frame crop, a 480×270 overlay at the origin, and a four-operation
gesture/edit sequence. -/
theorem c2_region_ops_preserve_invariant_witness :
    InBounds 1920 1080
      (applyRegionOps 1920 1080 ⟨⟨0, 0, 1920, 1080⟩, ⟨0, 0, 480, 270⟩⟩
        [.cropGesture .se ⟨100, 0, 1800, 500⟩ 100 0, .cropEdit .width 5000,
         .overlayDragOp 0 0 500 500, .overlayResizeOp 480 270 100 100]).crop ∧
    InBounds 1920 1080
      (applyRegionOps 1920 1080 ⟨⟨0, 0, 1920, 1080⟩, ⟨0, 0, 480, 270⟩⟩
        [.cropGesture .se ⟨100, 0, 1800, 500⟩ 100 0, .cropEdit .width 5000,
         .overlayDragOp 0 0 500 500, .overlayResizeOp 480 270 100 100]).overlay.toArea :=
  c2_region_ops_preserve_invariant 1920 1080 (by norm_num) (by norm_num)
    ⟨⟨0, 0, 1920, 1080⟩, ⟨0, 0, 480, 270⟩⟩
    (by simp only [InBounds]; norm_num)
    (by simp only [OverlayPosition.toArea, InBounds]; norm_num)
    [.cropGesture .se ⟨100, 0, 1800, 500⟩ 100 0, .cropEdit .width 5000,
     .overlayDragOp 0 0 500 500, .overlayResizeOp 480 270 100 100]

/-- C1, counterexample: with bounds 1920×1080, start rectangle
`{x:100, y:0, width:1800, height:500}` and an `se` drag of `dx = 100`
(requested width `1900 > 1920 − 100`), the clamp keeps `width = 1900` and
moves `x` to `20`; the claim would require `width = 1820` and `x = 100`. -/
theorem c1_counterexample :
    cropGestureUpdate 1920 1080 .se ⟨100, 0, 1800, 500⟩ 100 0 = ⟨20, 0, 1900, 500⟩ ∧
    ¬ ((cropGestureUpdate 1920 1080 .se ⟨100, 0, 1800, 500⟩ 100 0).width = 1920 - 100 ∧
       (cropGestureUpdate 1920 1080 .se ⟨100, 0, 1800, 500⟩ 100 0).x = 100) := by
  have h : cropGestureUpdate 1920 1080 .se ⟨100, 0, 1800, 500⟩ 100 0 = ⟨20, 0, 1900, 500⟩ := by
    simp only [cropGestureUpdate, clampArea, gestureTransform, jsRound]
    norm_num
  refine ⟨h, ?_⟩
  rw [h]
  intro hc
  exact absurd hc.2 (by norm_num)

/-- C1, amended: after an `se`-handle resize whose requested width `wi`
exceeds `boundsWidth − x` (with `x > 0`, `minSize ≤ wi ≤ boundsWidth`,
integer inputs), the clamp keeps `width = wi` and instead moves the
rectangle left to `x = boundsWidth − wi < x`: the overflow is resolved by
moving `x`, not by shrinking the width to `boundsWidth − x`. -/
theorem c1_se_resize_clamp (W H : ℤ) (init : RatArea) (dx dy : ℚ) (xi wi : ℤ)
    (hx : init.x = (xi : ℚ)) (hxpos : 0 < xi)
    (hw : init.width + dx = (wi : ℚ)) (hwmin : 20 ≤ wi) (hwle : wi ≤ W)
    (hover : W - xi < wi) :
    (cropGestureUpdate W H .se init dx dy).width = wi ∧
    (cropGestureUpdate W H .se init dx dy).x = W - wi ∧
    (cropGestureUpdate W H .se init dx dy).x < xi := by
  simp only [cropGestureUpdate, clampArea, gestureTransform]
  rw [hx, hw, jsRound_intCast, jsRound_intCast]
  refine ⟨?_, ?_, ?_⟩ <;> omega

/-- Witness for `c1_se_resize_clamp` at bounds 1920×1080, start rectangle
`{x:100, y:0, width:1800, height:500}`, `se` drag `dx = 100`. -/
theorem c1_se_resize_clamp_witness :
    (cropGestureUpdate 1920 1080 .se ⟨100, 0, 1800, 500⟩ 100 0).width = 1900 ∧
    (cropGestureUpdate 1920 1080 .se ⟨100, 0, 1800, 500⟩ 100 0).x = 1920 - 1900 ∧
    (cropGestureUpdate 1920 1080 .se ⟨100, 0, 1800, 500⟩ 100 0).x < 100 :=
  c1_se_resize_clamp 1920 1080 ⟨100, 0, 1800, 500⟩ 100 0 100 1900
    (by norm_num) (by norm_num) (by norm_num) (by norm_num) (by norm_num) (by norm_num)

/-- C3: visibility is the half-open window
`overlayStart ≤ t < min(overlayStart + secondaryDuration, primaryDuration)`
— visible at `t = overlayStart` (whenever the window is nonempty), not
visible at `t = overlayEnd` — and when not visible the secondary ends up
paused with zero opacity and no pointer interaction, for every requested
play state. -/
theorem c3_visibility_window (t start dur primDur : ℚ) (isPlaying : Bool)
    (v : VideoElState) :
    (shouldShow t start dur primDur = true ↔
      start ≤ t ∧ t < overlayEndTime start dur primDur) ∧
    overlayEndTime start dur primDur = min (start + dur) primDur ∧
    (start < overlayEndTime start dur primDur →
      shouldShow start start dur primDur = true) ∧
    shouldShow (overlayEndTime start dur primDur) start dur primDur = false ∧
    (shouldShow t start dur primDur = false →
      (syncOverlay t start dur primDur isPlaying v).video.paused = true ∧
      overlayOpacity (shouldShow t start dur primDur) = 0 ∧
      overlayPointerEventsAuto (shouldShow t start dur primDur) = false) := by
  refine ⟨?_, rfl, ?_, ?_, ?_⟩
  · simp [shouldShow]
  · intro h
    simp [shouldShow, h]
  · simp [shouldShow]
  · intro h
    refine ⟨?_, ?_, ?_⟩
    · simp only [syncOverlay, h, Bool.false_eq_true, if_false]
      cases hp : v.paused <;> simp [hp]
    · simp [overlayOpacity, h]
    · simp [overlayPointerEventsAuto, h]

/-- Witness for `c3_visibility_window` with the spec scenario
`overlayStart = 10`, secondary duration `15`, primary duration `120` at
`t = 30` (outside the window), requested play state `true`. -/
theorem c3_visibility_window_witness :
    (shouldShow 30 10 15 120 = true ↔ 10 ≤ (30 : ℚ) ∧ (30 : ℚ) < overlayEndTime 10 15 120) ∧
    overlayEndTime 10 15 120 = min (10 + 15) 120 ∧
    ((10 : ℚ) < overlayEndTime 10 15 120 → shouldShow 10 10 15 120 = true) ∧
    shouldShow (overlayEndTime 10 15 120) 10 15 120 = false ∧
    (shouldShow 30 10 15 120 = false →
      (syncOverlay 30 10 15 120 true ⟨0, false⟩).video.paused = true ∧
      overlayOpacity (shouldShow 30 10 15 120) = 0 ∧
      overlayPointerEventsAuto (shouldShow 30 10 15 120) = false) :=
  c3_visibility_window 30 10 15 120 true ⟨0, false⟩

/-- C4: while the overlay is visible, a non-playing primary forces
`secondaryTime = primaryTime − overlayStart` on every update (always a
seek), while a playing primary issues a seek exactly when
`|secondaryTime − (primaryTime − overlayStart)| > 0.3` and otherwise leaves
the secondary's own clock running. -/
theorem c4_sync_policy (t start dur primDur : ℚ) (v : VideoElState)
    (hvis : shouldShow t start dur primDur = true) :
    ((syncOverlay t start dur primDur false v).seeked = true ∧
     (syncOverlay t start dur primDur false v).video.currentTime = t - start) ∧
    ((syncOverlay t start dur primDur true v).seeked = true ↔
      |v.currentTime - (t - start)| > 3/10) ∧
    ((syncOverlay t start dur primDur true v).seeked = false →
      (syncOverlay t start dur primDur true v).video.currentTime =
        v.currentTime) ∧
    ((syncOverlay t start dur primDur true v).seeked = true →
      (syncOverlay t start dur primDur true v).video.currentTime =
        t - start) := by
  refine ⟨⟨?_, ?_⟩, ?_, ?_, ?_⟩ <;>
    by_cases h : |v.currentTime - (t - start)| > 3/10 <;>
      simp [syncOverlay, hvis, h]

/-- Witness for `c4_sync_policy` with the spec scenario at `t = 24.9`,
`overlayStart = 10`, secondary duration `15`, primary duration `120`,
secondary currently at `14` (drift `0.9 > 0.3`). -/
theorem c4_sync_policy_witness :
    ((syncOverlay (249/10) 10 15 120 false ⟨14, false⟩).seeked = true ∧
     (syncOverlay (249/10) 10 15 120 false ⟨14, false⟩).video.currentTime =
       249/10 - 10) ∧
    ((syncOverlay (249/10) 10 15 120 true ⟨14, false⟩).seeked = true ↔
      |(14 : ℚ) - (249/10 - 10)| > 3/10) ∧
    ((syncOverlay (249/10) 10 15 120 true ⟨14, false⟩).seeked = false →
      (syncOverlay (249/10) 10 15 120 true ⟨14, false⟩).video.currentTime = 14) ∧
    ((syncOverlay (249/10) 10 15 120 true ⟨14, false⟩).seeked = true →
      (syncOverlay (249/10) 10 15 120 true ⟨14, false⟩).video.currentTime =
        249/10 - 10) :=
  c4_sync_policy (249/10) 10 15 120 ⟨14, false⟩
    (by simp [shouldShow, overlayEndTime]; norm_num)

/-- With a nonzero scale the two coordinate maps compose to the identity on
integer rectangles (the rational arithmetic is exact and `jsRound` fixes
integers). -/
theorem toVideoCoords_toContainerCoords (scale offsetX offsetY : ℚ)
    (hs : scale ≠ 0) (a : CropArea) :
    toVideoCoords scale offsetX offsetY
      (toContainerCoords scale offsetX offsetY a) = a := by
  simp only [toVideoCoords, toContainerCoords, add_sub_cancel_right,
    mul_div_assoc, div_self hs, mul_one]
  cases a
  simp [jsRound_intCast]

/-- For positive video and container dimensions the computed scale is
positive. -/
theorem computeFit_scale_pos (W H cw ch : ℚ) (hW : 0 < W) (hH : 0 < H)
    (hcw : 0 < cw) (hch : 0 < ch) : 0 < (computeFit W H cw ch).scale := by
  simp only [computeFit]
  split
  · exact div_pos hcw hW
  · exact div_pos (mul_pos hch (div_pos hW hH)) hW

/-- C5: for any native rectangle with integer fields inside the native
frame and any positive viewport dimensions, mapping to viewport
coordinates and back yields each field within ±1 of the original (in fact
exactly). -/
theorem c5_roundtrip (W H cw ch : ℚ) (hW : 0 < W) (hH : 0 < H)
    (hcw : 0 < cw) (hch : 0 < ch) (a : CropArea)
    (_hx : 0 ≤ a.x) (_hy : 0 ≤ a.y)
    (_hxw : (a.x + a.width : ℚ) ≤ W) (_hyh : (a.y + a.height : ℚ) ≤ H) :
    |(toVideoCoords (computeFit W H cw ch).scale (computeFit W H cw ch).offsetX
        (computeFit W H cw ch).offsetY
        (toContainerCoords (computeFit W H cw ch).scale
          (computeFit W H cw ch).offsetX (computeFit W H cw ch).offsetY a)).x -
      a.x| ≤ 1 ∧
    |(toVideoCoords (computeFit W H cw ch).scale (computeFit W H cw ch).offsetX
        (computeFit W H cw ch).offsetY
        (toContainerCoords (computeFit W H cw ch).scale
          (computeFit W H cw ch).offsetX (computeFit W H cw ch).offsetY a)).y -
      a.y| ≤ 1 ∧
    |(toVideoCoords (computeFit W H cw ch).scale (computeFit W H cw ch).offsetX
        (computeFit W H cw ch).offsetY
        (toContainerCoords (computeFit W H cw ch).scale
          (computeFit W H cw ch).offsetX (computeFit W H cw ch).offsetY a)).width -
      a.width| ≤ 1 ∧
    |(toVideoCoords (computeFit W H cw ch).scale (computeFit W H cw ch).offsetX
        (computeFit W H cw ch).offsetY
        (toContainerCoords (computeFit W H cw ch).scale
          (computeFit W H cw ch).offsetX (computeFit W H cw ch).offsetY a)).height -
      a.height| ≤ 1 := by
  have hs : (computeFit W H cw ch).scale ≠ 0 :=
    ne_of_gt (computeFit_scale_pos W H cw ch hW hH hcw hch)
  rw [toVideoCoords_toContainerCoords _ _ _ hs a]
  refine ⟨?_, ?_, ?_, ?_⟩ <;> simp

/-- Witness for `c5_roundtrip`: the spec scenario of a 1920×1080 frame in
an 800×400 viewport, with the rectangle `{x:10, y:20, width:100,
height:50}`. -/
theorem c5_roundtrip_witness :
    |(toVideoCoords (computeFit 1920 1080 800 400).scale
        (computeFit 1920 1080 800 400).offsetX
        (computeFit 1920 1080 800 400).offsetY
        (toContainerCoords (computeFit 1920 1080 800 400).scale
          (computeFit 1920 1080 800 400).offsetX
          (computeFit 1920 1080 800 400).offsetY ⟨10, 20, 100, 50⟩)).x -
      (10 : ℤ)| ≤ 1 ∧
    |(toVideoCoords (computeFit 1920 1080 800 400).scale
        (computeFit 1920 1080 800 400).offsetX
        (computeFit 1920 1080 800 400).offsetY
        (toContainerCoords (computeFit 1920 1080 800 400).scale
          (computeFit 1920 1080 800 400).offsetX
          (computeFit 1920 1080 800 400).offsetY ⟨10, 20, 100, 50⟩)).y -
      (20 : ℤ)| ≤ 1 ∧
    |(toVideoCoords (computeFit 1920 1080 800 400).scale
        (computeFit 1920 1080 800 400).offsetX
        (computeFit 1920 1080 800 400).offsetY
        (toContainerCoords (computeFit 1920 1080 800 400).scale
          (computeFit 1920 1080 800 400).offsetX
          (computeFit 1920 1080 800 400).offsetY ⟨10, 20, 100, 50⟩)).width -
      (100 : ℤ)| ≤ 1 ∧
    |(toVideoCoords (computeFit 1920 1080 800 400).scale
        (computeFit 1920 1080 800 400).offsetX
        (computeFit 1920 1080 800 400).offsetY
        (toContainerCoords (computeFit 1920 1080 800 400).scale
          (computeFit 1920 1080 800 400).offsetX
          (computeFit 1920 1080 800 400).offsetY ⟨10, 20, 100, 50⟩)).height -
      (50 : ℤ)| ≤ 1 :=
  c5_roundtrip 1920 1080 800 400 (by norm_num) (by norm_num) (by norm_num)
    (by norm_num) ⟨10, 20, 100, 50⟩ (by norm_num) (by norm_num)
    (by norm_num) (by norm_num)

/-- C9, counterexample: with both viewport dimensions 0 the mapper computes
`scale = 0`, not the claimed identity `scale = 1`. -/
theorem c9_counterexample :
    (computeFit 1920 1080 0 0).scale = 0 ∧
    ¬ (computeFit 1920 1080 0 0).scale = 1 := by
  constructor <;> norm_num [computeFit]

/-- C9, amended: there is no identity/no-op guard.  With positive native
dimensions, a zero viewport height yields `scale = 0`,
`offsetX = viewportWidth / 2`, `offsetY = 0`; a zero viewport width (with
positive viewport height) yields `scale = 0`, `offsetX = 0`,
`offsetY = viewportHeight / 2`. -/
theorem c9_zero_viewport (W H cw ch : ℚ) (hW : 0 < W) (hH : 0 < H)
    (hch : 0 < ch) :
    ((computeFit W H cw 0).scale = 0 ∧
     (computeFit W H cw 0).offsetX = cw / 2 ∧
     (computeFit W H cw 0).offsetY = 0) ∧
    ((computeFit W H 0 ch).scale = 0 ∧
     (computeFit W H 0 ch).offsetX = 0 ∧
     (computeFit W H 0 ch).offsetY = ch / 2) := by
  have hWH : 0 < W / H := div_pos hW hH
  constructor
  · simp [computeFit]
  · simp [computeFit, hch.ne', hWH]

/-- Witness for `c9_zero_viewport` at a 1920×1080 native frame with
viewport width 800 (zero-height case) and viewport height 400 (zero-width
case). -/
theorem c9_zero_viewport_witness :
    (((computeFit 1920 1080 800 0).scale = 0 ∧
      (computeFit 1920 1080 800 0).offsetX = 800 / 2 ∧
      (computeFit 1920 1080 800 0).offsetY = 0) ∧
     ((computeFit 1920 1080 0 400).scale = 0 ∧
      (computeFit 1920 1080 0 400).offsetX = 0 ∧
      (computeFit 1920 1080 0 400).offsetY = 400 / 2)) :=
  c9_zero_viewport 1920 1080 800 400 (by norm_num) (by norm_num) (by norm_num)

/-- C6, counterexample: switching `editorStateWithCrop` (which has the
crop region `{x:10, y:10, width:600, height:400}`) to merge mode leaves
that crop region in place; the claim would require it to be cleared. -/
theorem c6_counterexample :
    (handleModeChange editorStateWithCrop .merge).cropArea =
      some ⟨10, 10, 600, 400⟩ ∧
    (handleModeChange editorStateWithCrop .merge).cropArea ≠ none := by
  have h : (handleModeChange editorStateWithCrop .merge).cropArea =
      some ⟨10, 10, 600, 400⟩ := rfl
  exact ⟨h, by rw [h]; simp⟩

/-- C6, amended: switching to merge mode leaves the crop region unchanged
(it clears nothing); switching to crop mode clears the selected secondary
and the overlay placement and, when a primary is loaded, creates the
full-frame default crop `{0, 0, primaryWidth, primaryHeight}` exactly when
no crop region exists yet. -/
theorem c6_mode_change (s : EditorState) (m : VideoFile)
    (hm : s.mainVideo = some m) :
    (handleModeChange s .merge).cropArea = s.cropArea ∧
    (handleModeChange s .crop).selectedMaterial = none ∧
    (handleModeChange s .crop).overlayPosition = none ∧
    (s.cropArea = none →
      (handleModeChange s .crop).cropArea = some ⟨0, 0, m.width, m.height⟩) ∧
    (s.cropArea ≠ none → (handleModeChange s .crop).cropArea = s.cropArea) := by
  cases hc : s.cropArea <;> simp [handleModeChange, hm, hc]

/-- Witness for `c6_mode_change` at `editorStateWithCrop` (main video
`sampleVideo`, crop region present). -/
theorem c6_mode_change_witness :
    (handleModeChange editorStateWithCrop .merge).cropArea =
      editorStateWithCrop.cropArea ∧
    (handleModeChange editorStateWithCrop .crop).selectedMaterial = none ∧
    (handleModeChange editorStateWithCrop .crop).overlayPosition = none ∧
    (editorStateWithCrop.cropArea = none →
      (handleModeChange editorStateWithCrop .crop).cropArea =
        some ⟨0, 0, sampleVideo.width, sampleVideo.height⟩) ∧
    (editorStateWithCrop.cropArea ≠ none →
      (handleModeChange editorStateWithCrop .crop).cropArea =
        editorStateWithCrop.cropArea) :=
  c6_mode_change editorStateWithCrop sampleVideo rfl

/-- C7: the asset built by the completed branch of `pollTaskStatus` has
`duration = endTime − startTime`, the crop region's dimensions when one was
specified (primary's dimensions otherwise), `frameCount` rounded from
`duration × fps`, the requested output format, the provenance of the job
kind and the primary as parent — and `handleVideoExported` appends it to
the library, leaving the primary selection and the primary's library entry
untouched. -/
theorem c7_completed_asset (s : EditorState) (mainVideo : VideoFile)
    (taskId : String) (resultFileId : Option String) (format : String)
    (kind : JobKind) (timestamp : String) (startTime endTime : ℚ)
    (cropArea : Option CropArea) (overlayPosition : Option OverlayPosition)
    (v : VideoFile)
    (hv : v = completedVideo mainVideo taskId resultFileId format kind
      timestamp startTime endTime cropArea overlayPosition)
    (hcz : (cropArea.all fun c =>
      decide (c.width ≠ 0) && decide (c.height ≠ 0)) = true) :
    v.duration = endTime - startTime ∧
    v.width = (match cropArea with
               | some c => c.width
               | none => mainVideo.width) ∧
    v.height = (match cropArea with
                | some c => c.height
                | none => mainVideo.height) ∧
    v.frameCount = jsRound (v.duration * mainVideo.fps) ∧
    v.format = format ∧
    v.sourceType = some kind.toSourceType ∧
    v.parentId = some mainVideo.id ∧
    (handleVideoExported s v).allVideos = s.allVideos ++ [v] ∧
    (handleVideoExported s v).mainVideo = s.mainVideo ∧
    (mainVideo ∈ s.allVideos →
      mainVideo ∈ (handleVideoExported s v).allVideos) := by
  subst hv
  cases cropArea with
  | none =>
      exact ⟨rfl, rfl, rfl, rfl, rfl, rfl, rfl, rfl, rfl,
        fun h => List.mem_append_left _ h⟩
  | some c =>
      simp only [Option.all, Bool.and_eq_true, decide_eq_true_eq] at hcz
      obtain ⟨hw, hh⟩ := hcz
      refine ⟨rfl, ?_, ?_, rfl, rfl, rfl, rfl, rfl, rfl,
        fun h => List.mem_append_left _ h⟩
      · simp [completedVideo, hw]
      · simp [completedVideo, hh]

/-- Witness for `c7_completed_asset`: the completed crop job
`c7SampleResult` over `sampleVideo` (5 s – 15 s, crop `{10,10,600,400}`)
exported into `editorStateWithCrop`. -/
theorem c7_completed_asset_witness :
    c7SampleResult.duration = 15 - 5 ∧
    c7SampleResult.width = 600 ∧
    c7SampleResult.height = 400 ∧
    c7SampleResult.frameCount = jsRound (c7SampleResult.duration * sampleVideo.fps) ∧
    c7SampleResult.format = "mp4" ∧
    c7SampleResult.sourceType = some SourceType.crop ∧
    c7SampleResult.parentId = some sampleVideo.id ∧
    (handleVideoExported editorStateWithCrop c7SampleResult).allVideos =
      editorStateWithCrop.allVideos ++ [c7SampleResult] ∧
    (handleVideoExported editorStateWithCrop c7SampleResult).mainVideo =
      editorStateWithCrop.mainVideo ∧
    (sampleVideo ∈ editorStateWithCrop.allVideos →
      sampleVideo ∈ (handleVideoExported editorStateWithCrop c7SampleResult).allVideos) :=
  c7_completed_asset editorStateWithCrop sampleVideo "t1" (some "r1") "mp4"
    .crop "120000" 5 15 (some ⟨10, 10, 600, 400⟩) none c7SampleResult rfl
    (by decide)

/-- C8: the file `clip.flv` (declared type `video/x-flv`, 1000 bytes) is
accepted by `validateFile` and proceeds to the network upload, although its
extension and declared type are outside the documented
mp4/mov/avi/webm/mkv set — the extension regex additionally accepts `flv`
and `wmv`, contradicting the component's own error and hint text. -/
theorem c8_flv_accepted :
    validateFile ⟨"clip.flv", "video/x-flv", 1000⟩ = none ∧
    uploadProceeds ⟨"clip.flv", "video/x-flv", 1000⟩ = true ∧
    allowedExtension "clip.flv" = true ∧
    ALLOWED_TYPES.contains "video/x-flv" = false := by
  refine ⟨?_, ?_, ?_, ?_⟩ <;> decide

/-- C10: uploading an asset whose id already exists leaves the library
unchanged; when a primary exists the upload only prepends the new asset —
primary selection, edit range, current time, crop region, overlay
placement and selected secondary are all untouched — and the uploaded
asset becomes primary exactly when no primary exists. -/
theorem c10_upload_effect (s : EditorState) (v : VideoFile) :
    ((s.allVideos.any fun w => w.id == v.id) = true →
      (handleMainVideoUpload s v).allVideos = s.allVideos) ∧
    (s.mainVideo ≠ none →
      (handleMainVideoUpload s v).mainVideo = s.mainVideo ∧
      (handleMainVideoUpload s v).startTime = s.startTime ∧
      (handleMainVideoUpload s v).endTime = s.endTime ∧
      (handleMainVideoUpload s v).currentTime = s.currentTime ∧
      (handleMainVideoUpload s v).cropArea = s.cropArea ∧
      (handleMainVideoUpload s v).overlayPosition = s.overlayPosition ∧
      (handleMainVideoUpload s v).selectedMaterial = s.selectedMaterial ∧
      ((s.allVideos.any fun w => w.id == v.id) = false →
        (handleMainVideoUpload s v).allVideos = v :: s.allVideos)) ∧
    (s.mainVideo = none → (handleMainVideoUpload s v).mainVideo = some v) := by
  refine ⟨?_, ?_, ?_⟩
  · intro h
    cases hm : s.mainVideo <;>
      simp [handleMainVideoUpload, mainVideoResetEffect, hm, h]
  · intro hm
    cases hm2 : s.mainVideo with
    | none => exact absurd hm2 hm
    | some m =>
        cases h : s.allVideos.any fun w => w.id == v.id <;>
          simp [handleMainVideoUpload, hm2, h]
  · intro hm
    simp [handleMainVideoUpload, mainVideoResetEffect, hm]

/-- Witness for `c10_upload_effect`: uploading `sampleVideo2` into
`editorStateWithCrop` (primary `sampleVideo` present, `v2` not yet in the
library). -/
theorem c10_upload_effect_witness :
    ((editorStateWithCrop.allVideos.any fun w => w.id == sampleVideo2.id) = true →
      (handleMainVideoUpload editorStateWithCrop sampleVideo2).allVideos =
        editorStateWithCrop.allVideos) ∧
    (editorStateWithCrop.mainVideo ≠ none →
      (handleMainVideoUpload editorStateWithCrop sampleVideo2).mainVideo =
        editorStateWithCrop.mainVideo ∧
      (handleMainVideoUpload editorStateWithCrop sampleVideo2).startTime =
        editorStateWithCrop.startTime ∧
      (handleMainVideoUpload editorStateWithCrop sampleVideo2).endTime =
        editorStateWithCrop.endTime ∧
      (handleMainVideoUpload editorStateWithCrop sampleVideo2).currentTime =
        editorStateWithCrop.currentTime ∧
      (handleMainVideoUpload editorStateWithCrop sampleVideo2).cropArea =
        editorStateWithCrop.cropArea ∧
      (handleMainVideoUpload editorStateWithCrop sampleVideo2).overlayPosition =
        editorStateWithCrop.overlayPosition ∧
      (handleMainVideoUpload editorStateWithCrop sampleVideo2).selectedMaterial =
        editorStateWithCrop.selectedMaterial ∧
      ((editorStateWithCrop.allVideos.any fun w => w.id == sampleVideo2.id) = false →
        (handleMainVideoUpload editorStateWithCrop sampleVideo2).allVideos =
          sampleVideo2 :: editorStateWithCrop.allVideos)) ∧
    (editorStateWithCrop.mainVideo = none →
      (handleMainVideoUpload editorStateWithCrop sampleVideo2).mainVideo =
        some sampleVideo2) :=
  c10_upload_effect editorStateWithCrop sampleVideo2

end VideoEditor
